import Mathlib

/-!
Verification of the netmon polling and telemetry engine.

Shallow embedding of the backend poller (`startPoller`), the MikroTik
metrics fetcher (`MikroTikService.fetchMetrics` / `getClient`), and the
alert service (`AlertService.checkThresholds` / `createAlert`):
JavaScript numbers are modelled as `ℚ` (or `ℤ`/`ℕ` where the source uses
`parseInt` on monotone counters), `Partial<NodeMetrics>` as a structure of
`Option` fields, `Promise` rejection as `Except`, and the JS truthiness
tests (`x && cond`, `x || 0`) explicitly.
-/

namespace Netmon

/-! ## Traffic-rate computation (`MikroTikService.fetchMetrics`, traffic block)

Embeds the byte-counter rate computation: cache entry
`trafficCache : "ip:iface" -> \x7b rx, tx, time \x7d`, current counters
parsed with `parseInt`, time in milliseconds from `Date.now()`. -/

/-- One entry of `MikroTikService.trafficCache`: byte counters and a
millisecond timestamp. -/
structure TrafficEntry where
  rx : ℕ
  tx : ℕ
  time : ℤ
  deriving DecidableEq, Repr

/-- JS `parseFloat(x.toFixed(2))` on a nonnegative rational: round to the
nearest multiple of 1/100 (half away from zero coincides with half up on
nonnegative inputs). -/
def toFixed2 (x : ℚ) : ℚ := ((round (x * 100) : ℤ) : ℚ) / 100

/-- The traffic block of `fetchMetrics`: given the cached entry for the
`ip:iface` key (if any) and the freshly observed counters and time,
produce `(rxMbps, txMbps)` and the new cache entry.  Rates stay `0`
unless a cache entry exists, `timeDiff > 0`, and both counters are
`≥` the cached ones; the cache entry is replaced unconditionally. -/
def trafficStep (last : Option TrafficEntry) (currentRx currentTx : ℕ)
    (currentTime : ℤ) : (ℚ × ℚ) × TrafficEntry :=
  let newEntry : TrafficEntry := ⟨currentRx, currentTx, currentTime⟩
  match last with
  | none => ((0, 0), newEntry)
  | some l =>
    let timeDiff : ℚ := ((currentTime - l.time : ℤ) : ℚ) / 1000
    if 0 < timeDiff then
      if l.rx ≤ currentRx ∧ l.tx ≤ currentTx then
        let rxBps : ℚ := (((currentRx : ℚ) - (l.rx : ℚ)) * 8) / timeDiff
        let txBps : ℚ := (((currentTx : ℚ) - (l.tx : ℚ)) * 8) / timeDiff
        ((toFixed2 (rxBps / 1000000), toFixed2 (txBps / 1000000)), newEntry)
      else ((0, 0), newEntry)
    else ((0, 0), newEntry)

/-! ## Alert evaluator (`AlertService`)

`checkThresholds` builds the alert list from the metrics bag using JS
truthiness (`metrics.x && metrics.x OP bound`): an absent field and the
numeric value `0` are both falsy and skip the rule.  `createAlert` is the
check-then-insert against the `alerts` table, modelled as a row list. -/

/-- Type/severity of a threshold alert pushed by `checkThresholds`. -/
structure ThresholdAlert where
  ty : String
  severity : String
  deriving DecidableEq, Repr

def cpuHighAlert : ThresholdAlert := ⟨"CPU_HIGH", "CRITICAL"⟩

def tempHighAlert : ThresholdAlert := ⟨"TEMP_HIGH", "WARNING"⟩

def voltageLowAlert : ThresholdAlert := ⟨"VOLTAGE_LOW", "WARNING"⟩

/-- `Partial<NodeMetrics>` as returned by the second `fetchMetrics`:
every field may be absent (`undefined`). -/
structure PartialMetrics where
  cpuLoad : Option ℤ := none
  memoryUsage : Option ℤ := none
  uptime : Option String := none
  boardName : Option String := none
  version : Option String := none
  temperature : Option ℤ := none
  voltage : Option ℚ := none
  txRate : Option ℚ := none
  rxRate : Option ℚ := none
  activePeers : Option ℤ := none
  deriving DecidableEq, Repr

/-- The pure rule table of `AlertService.checkThresholds`.  Each guard is
the JS conjunction `metrics.x && metrics.x OP bound`: `undefined` and `0`
are falsy, so a present value `0` skips the rule. -/
def checkThresholds (m : PartialMetrics) : List ThresholdAlert :=
  (match m.cpuLoad with
   | some v => if v ≠ 0 ∧ 85 < v then [cpuHighAlert] else []
   | none => []) ++
  (match m.temperature with
   | some v => if v ≠ 0 ∧ 65 < v then [tempHighAlert] else []
   | none => []) ++
  (match m.voltage with
   | some v => if v ≠ 0 ∧ v < 20 then [voltageLowAlert] else []
   | none => [])

/-- A row of the `alerts` table. -/
structure AlertRow where
  nodeId : String
  ty : String
  message : String
  severity : String
  active : Bool
  deriving DecidableEq, Repr

/-- The WHERE clause of the dedup query:
`node_id = $1 AND type = $2 AND active = TRUE`. -/
def matchesActive (n t : String) (r : AlertRow) : Bool :=
  r.nodeId == n && r.ty == t && r.active

/-- `SELECT id FROM alerts WHERE node_id AND type AND active` is nonempty. -/
def hasActiveAlert (db : List AlertRow) (n t : String) : Bool :=
  db.any (matchesActive n t)

/-- `AlertService.createAlert`: insert a new active row only when no
active row of the same (node, type) pair exists. -/
def createAlert (db : List AlertRow) (n t msg sev : String) : List AlertRow :=
  if hasActiveAlert db n t then db
  else db ++ [⟨n, t, msg, sev, true⟩]

/-- Number of active rows for a (node, type) pair. -/
def activeAlertCount (db : List AlertRow) (n t : String) : ℕ :=
  (db.filter (matchesActive n t)).length

/-- `AlertService.createOfflineAlert`. -/
def createOfflineAlert (db : List AlertRow) (nodeId name ip : String) : List AlertRow :=
  createAlert db nodeId "OFFLINE"
    ("Device " ++ name ++ " (" ++ ip ++ ") is unreachable") "CRITICAL"

/-! ## Per-device poll task (`startPoller`, body of the chunked `Promise.all`)

The per-device async function of the poller: ICMP probe (sentinel `-1`),
optional authenticated metric fetch (the second `fetchMetrics` catches every
error itself and resolves with `\x7b\x7d`), threshold check (whose rejection
is caught and downgrades the status to WARNING), offline-alert insert (NOT
guarded — its rejection rejects the whole task), and construction of the
dashboard-summary entry and the per-device detail message. -/

/-- The metric values assembled by a successful `fetchMetrics` run (every
field is always present on the success path, defaulted to `0`/`""`). -/
structure FullMetrics where
  cpuLoad : ℤ
  memoryUsage : ℤ
  uptime : String
  boardName : String
  version : String
  temperature : ℤ
  voltage : ℚ
  txRate : ℚ
  rxRate : ℚ
  activePeers : ℤ
  deriving DecidableEq, Repr

/-- Result of `MikroTikService.fetchMetrics` (second version): on any
connect/auth error the catch block resolves with the empty object; on
success all fields are present. -/
def fetchMetricsResult (connectOk : Bool) (fm : FullMetrics) : PartialMetrics :=
  if connectOk then
    { cpuLoad := some fm.cpuLoad
      memoryUsage := some fm.memoryUsage
      uptime := some fm.uptime
      boardName := some fm.boardName
      version := some fm.version
      temperature := some fm.temperature
      voltage := some fm.voltage
      txRate := some fm.txRate
      rxRate := some fm.rxRate
      activePeers := some fm.activePeers }
  else {}

/-- Environment of one device inside one poll cycle: the ping result
(`-1` = unreachable), whether credentials are configured, whether the
management connection succeeds, the device metric values, and whether the
three external writes reject. -/
structure NodeInput where
  ping : ℚ
  hasCreds : Bool
  connectOk : Bool
  fm : FullMetrics
  thresholdsThrow : Bool
  offlineAlertThrow : Bool
  dbUpdateThrow : Bool
  deriving DecidableEq, Repr

/-- One element of the `dashboardUpdates` array (summary broadcast). -/
structure DashboardEntry where
  status : String
  latency : ℚ
  txRate : ℚ
  rxRate : ℚ
  cpuLoad : ℤ
  memoryUsage : ℤ
  deriving DecidableEq, Repr

/-- The `node:full_update` room message: raw latency plus spread metrics. -/
structure DetailMessage where
  status : String
  latency : ℚ
  metrics : PartialMetrics
  deriving DecidableEq, Repr

/-- Everything one device task publishes. -/
structure DeviceOutput where
  dash : DashboardEntry
  detail : DetailMessage
  status : String
  deriving DecidableEq, Repr

/-- JS `x || 0` on a numeric field: `undefined` and `0` both yield `0`,
any other number yields itself — extensionally `Option.getD 0`. -/
def jsOrZeroQ (o : Option ℚ) : ℚ := o.getD 0

/-- JS `x || 0` on an integer field. -/
def jsOrZeroI (o : Option ℤ) : ℤ := o.getD 0

/-- Steps C and D of the per-device task: the dashboard entry normalizes
the latency (`latency >= 0 ? latency : 0`) and defaults the four numeric
fields with `|| 0`; the room message spreads the raw latency and metrics. -/
def mkDeviceOutput (status : String) (latency : ℚ) (m : PartialMetrics) :
    DeviceOutput :=
  { status := status
    dash :=
      { status := status
        latency := if 0 ≤ latency then latency else 0
        txRate := jsOrZeroQ m.txRate
        rxRate := jsOrZeroQ m.rxRate
        cpuLoad := jsOrZeroI m.cpuLoad
        memoryUsage := jsOrZeroI m.memoryUsage }
    detail := { status := status, latency := latency, metrics := m } }

/-- The per-device async function mapped over one chunk.  `fetchMetrics`
never rejects (it catches internally and resolves `\x7b\x7d`), so only a
`checkThresholds` rejection reaches the catch that sets WARNING; on the
unreachable path `createOfflineAlert` is awaited without a guard, so its
rejection rejects the task itself. -/
def deviceTask (n : NodeInput) : Except Unit DeviceOutput :=
  if n.ping ≠ -1 then
    if n.hasCreds then
      let m := fetchMetricsResult n.connectOk n.fm
      let status := if n.thresholdsThrow then "WARNING" else "ONLINE"
      Except.ok (mkDeviceOutput status n.ping m)
    else
      Except.ok (mkDeviceOutput "ONLINE" n.ping {})
  else
    if n.offlineAlertThrow then Except.error ()
    else Except.ok (mkDeviceOutput "OFFLINE" n.ping {})

/-- A settled task value, `none` for a rejection. -/
def exceptValue : Except Unit DeviceOutput → Option DeviceOutput
  | Except.ok o => some o
  | Except.error _ => none

/-- Whether a task fulfilled. -/
def isOkTask : Except Unit DeviceOutput → Bool
  | Except.ok _ => true
  | Except.error _ => false

/-- Fuelled worker for `chunkArray`; the fuel is the list length, and each
step consumes at least one element whenever `0 < size`. -/
def chunkArrayGo {α : Type} (size : ℕ) : ℕ → List α → List (List α)
  | _, [] => []
  | 0, _ :: _ => []
  | fuel + 1, x :: xs => (x :: xs).take size :: chunkArrayGo size fuel ((x :: xs).drop size)

/-- The poller helper `chunkArray(arr, size)`: successive slices of
`size` elements. -/
def chunkArray {α : Type} (l : List α) (size : ℕ) : List (List α) :=
  chunkArrayGo size l.length l

/-- The chunk loop of `startPoller`: chunks run strictly in order, each
chunk is awaited with `Promise.all`.  Fulfilled tasks contribute their
output (their room message was already emitted and their summary entry
pushed); one rejection makes the `await` throw, so later chunks never run
and the flush + dashboard broadcast (the `Bool`) are skipped. -/
def runBatchesGo : List (List NodeInput) → List DeviceOutput → Bool × List DeviceOutput
  | [], acc => (true, acc)
  | b :: rest, acc =>
    let outs := b.map deviceTask
    let sent := acc ++ outs.filterMap exceptValue
    if outs.all isOkTask then runBatchesGo rest sent else (false, sent)

/-- One poll cycle over a device list: chunk into batches of 20, run the
chunk loop.  First component: whether the cycle reached the time-series
flush and the `dashboard:update` broadcast. -/
def runPollCycle (nodes : List NodeInput) : Bool × List DeviceOutput :=
  runBatchesGo (chunkArray nodes 20) []

/-- All-zero metric values (a freshly booted idle device). -/
def fmZero : FullMetrics := ⟨0, 0, "", "", "", 0, 0, 0, 0, 0⟩

/-- A reachable ping-only device whose cycle succeeds everywhere. -/
def goodNode : NodeInput := ⟨5, false, false, fmZero, false, false, false⟩

/-- An unreachable device whose OFFLINE-alert insert rejects. -/
def badOfflineNode : NodeInput := ⟨-1, false, false, fmZero, false, true, false⟩

/-- 21 devices: the failing one plus 20 healthy ones, so the cycle spans
two chunks. -/
def cycleNodesCex : List NodeInput := badOfflineNode :: List.replicate 20 goodNode

/-- An unreachable device (probe sentinel `-1`) whose alert insert works. -/
def pingFailNode : NodeInput := ⟨-1, true, true, fmZero, false, false, false⟩

/-- A reachable, credentialed device whose management connect fails. -/
def reachableConnFailNode : NodeInput := ⟨5, true, false, fmZero, false, false, false⟩

/-- A metrics bag whose health query returned no voltage reading, so
`parseFloat(h.voltage || 0)` produced the present value `0`. -/
def voltageZeroMetrics : PartialMetrics := { voltage := some 0 }

/-! ## Connection pool (`MikroTikService.getClient`, first version)

Small-step interleaving model of `getClient` for one fixed key.  A caller
checks the pool; on a hit it returns the pooled client, on a miss it
creates a client and awaits `connect()` — a suspension point — and only
after the connect resolves stores the client in the pool.  The `error` /
`close` observer removes the client from the pool when it is still the
pooled one. -/

/-- The pool cell for the key plus a counter of begun connection attempts;
client ids are allocated from the counter. -/
structure PoolState where
  pool : Option ℕ
  connects : ℕ
  deriving DecidableEq, Repr

/-- Program counter of one `getClient` caller. -/
inductive AcqPC where
  | start : AcqPC
  | connecting : ℕ → AcqPC
  | done : ℕ → AcqPC
  deriving DecidableEq, Repr

/-- One atomic step of one caller.  `start`: the synchronous prefix up to
`await client.connect()` (pool check, client creation, attempt begun);
`connecting`: the continuation after the connect resolves
(`connectionPool.set`); `done`: returned. -/
def acqStep (s : PoolState) (pc : AcqPC) : PoolState × AcqPC :=
  match pc with
  | AcqPC.start =>
    match s.pool with
    | some c => (s, AcqPC.done c)
    | none => ({ s with connects := s.connects + 1 }, AcqPC.connecting s.connects)
  | AcqPC.connecting cid => ({ s with pool := some cid }, AcqPC.done cid)
  | AcqPC.done c => (s, AcqPC.done c)

/-- Run an explicit interleaving: at each schedule entry, step that
caller (out-of-range entries are ignored). -/
def runAcqSchedule : PoolState → List AcqPC → List ℕ → PoolState × List AcqPC
  | s, ts, [] => (s, ts)
  | s, ts, i :: rest =>
    match ts[i]? with
    | none => runAcqSchedule s ts rest
    | some pc =>
      let r := acqStep s pc
      runAcqSchedule r.1 (ts.set i r.2) rest

/-- The `error`/`close` observer (`cleanup`): evict the key only when the
pooled client is still this client. -/
def poolErrorEvent (s : PoolState) (cid : ℕ) : PoolState :=
  if s.pool = some cid then { s with pool := none } else s

/-! ## Cycle scheduler (`startPoller`, interval callback)

The `setInterval` callback guarded by the module-level `isPolling` flag:
a tick that finds the flag set only logs and returns; otherwise the flag
is set, the cycle body runs inside try/catch, and the `finally` clause
clears the flag on every exit path. -/

/-- How one cycle body ends: the node query rejects, the node list is
empty (early return), some later await rejects, or everything succeeds. -/
inductive CycleEvent where
  | queryFails : CycleEvent
  | noNodes : CycleEvent
  | bodyFails : CycleEvent
  | ok : CycleEvent
  deriving DecidableEq, Repr

/-- Scheduler state: the module-level `isPolling` flag. -/
structure SchedState where
  isPolling : Bool
  deriving DecidableEq, Repr

/-- The try block: an exception is an `error`, both return paths are `ok`. -/
def cycleBody : CycleEvent → Except Unit Unit
  | CycleEvent.queryFails => Except.error ()
  | CycleEvent.noNodes => Except.ok ()
  | CycleEvent.bodyFails => Except.error ()
  | CycleEvent.ok => Except.ok ()

/-- One timer tick: `(new state, ran, completed normally)`.  A set flag
skips the tick; otherwise the body runs, the catch absorbs any rejection
(logging it), and the finally clause releases the flag either way. -/
def pollTick (s : SchedState) (ev : CycleEvent) : SchedState × Bool × Bool :=
  if s.isPolling then (s, false, false)
  else
    match cycleBody ev with
    | Except.ok _ => (⟨false⟩, true, true)
    | Except.error _ => (⟨false⟩, true, false)

end Netmon

namespace Netmon

/-- Claim C1: with a cached baseline and monotone counters over positive
elapsed time, the computed rates are the byte deltas times 8 over the
elapsed seconds, converted to Mbps with fixed 2-decimal rounding. -/
theorem C1_traffic_rate_formula (l : TrafficEntry) (rx tx : ℕ) (t : ℤ)
    (hrx : l.rx ≤ rx) (htx : l.tx ≤ tx) (ht : l.time < t) :
    (trafficStep (some l) rx tx t).1 =
      (toFixed2 ((((rx : ℚ) - (l.rx : ℚ)) * 8 / (((t : ℚ) - (l.time : ℚ)) / 1000)) / 1000000),
       toFixed2 ((((tx : ℚ) - (l.tx : ℚ)) * 8 / (((t : ℚ) - (l.time : ℚ)) / 1000)) / 1000000)) := by
  have hdt : (0 : ℚ) < ((t - l.time : ℤ) : ℚ) / 1000 := by
    have : (0 : ℤ) < t - l.time := by omega
    positivity
  simp only [trafficStep, if_pos hdt, if_pos (And.intro hrx htx)]
  push_cast
  ring_nf

/-- Witness for C1 at the spec's worked example: cached
(rx 100 MB, tx 50 MB) at t = 0, observed (225 MB, 100 MB) at t = 10 s
give 100.00 and 40.00 Mbps. -/
theorem C1_traffic_rate_formula_witness :
    (100000000 ≤ 225000000 ∧ 50000000 ≤ 100000000 ∧ (0 : ℤ) < 10000) ∧
    (trafficStep (some ⟨100000000, 50000000, 0⟩) 225000000 100000000 10000).1
      = (100, 40) := by
  refine ⟨⟨by norm_num, by norm_num, by norm_num⟩, ?_⟩
  have h := C1_traffic_rate_formula ⟨100000000, 50000000, 0⟩ 225000000 100000000 10000
    (by norm_num) (by norm_num) (by norm_num)
  rw [h]
  norm_num [toFixed2, round_eq]

/-- Claim C2: no cached baseline, or a counter below the cached one,
yields rate (0, 0); and the cache entry is always replaced by the newly
observed counters and time, lower or not. -/
theorem C2_counter_reset_and_cache_update (rx tx : ℕ) (t : ℤ) :
    (trafficStep none rx tx t).1 = (0, 0) ∧
    (∀ l : TrafficEntry, rx < l.rx ∨ tx < l.tx →
      (trafficStep (some l) rx tx t).1 = (0, 0)) ∧
    (∀ last : Option TrafficEntry,
      (trafficStep last rx tx t).2 = ⟨rx, tx, t⟩) := by
  refine ⟨rfl, ?_, ?_⟩
  · intro l h
    simp only [trafficStep]
    split_ifs with h1 h2
    · rcases h with h | h <;> omega
    · rfl
    · rfl
  · intro last
    cases last with
    | none => rfl
    | some l =>
      simp only [trafficStep]
      split_ifs <;> rfl

/-- Witness for C2: a wrapped counter (100 → 50) yields rate 0 while the
cache is still replaced by the lower observation. -/
theorem C2_counter_reset_and_cache_update_witness :
    ((50 : ℕ) < 100 ∨ (60 : ℕ) < 0) ∧
    (trafficStep (some ⟨100, 0, 0⟩) 50 60 5000).1 = (0, 0) ∧
    (trafficStep (some ⟨100, 0, 0⟩) 50 60 5000).2 = ⟨50, 60, 5000⟩ := by
  have h := C2_counter_reset_and_cache_update 50 60 5000
  exact ⟨Or.inl (by norm_num), h.2.1 ⟨100, 0, 0⟩ (Or.inl (by norm_num)),
    h.2.2 (some ⟨100, 0, 0⟩)⟩

/-- Counterexample to claim C3: for a device whose probe fails, the
per-device detail message carries the raw sentinel latency `-1`, not `0`
as claimed (the summary entry does carry `0`). -/
theorem C3_detail_latency_sentinel_cex :
    (exceptValue (deviceTask pingFailNode)).map
        (fun o => (o.dash.status, o.dash.latency, o.detail.status, o.detail.latency))
      = some ("OFFLINE", 0, "OFFLINE", -1) ∧ (-1 : ℚ) ≠ 0 := by
  constructor
  · simp [deviceTask, pingFailNode, mkDeviceOutput, exceptValue, fmZero]
  · norm_num

/-- Claim C3 as amended: for a failed probe (and a non-rejecting alert
insert) the dashboard-summary entry carries status OFFLINE and latency
exactly 0, while the per-device detail message carries status OFFLINE but
the raw sentinel latency `-1`. -/
theorem C3_offline_publish_amended (n : NodeInput)
    (hp : n.ping = -1) (ha : n.offlineAlertThrow = false) :
    ∃ o, deviceTask n = Except.ok o ∧
      o.dash.status = "OFFLINE" ∧ o.dash.latency = 0 ∧
      o.detail.status = "OFFLINE" ∧ o.detail.latency = -1 ∧
      o.detail.metrics = {} := by
  refine ⟨mkDeviceOutput "OFFLINE" (-1) {}, ?_, rfl, ?_, rfl, rfl, rfl⟩
  · simp [deviceTask, hp, ha]
  · simp only [mkDeviceOutput]
    norm_num

/-- Witness for the amended C3 at a concrete unreachable device. -/
theorem C3_offline_publish_amended_witness :
    (pingFailNode.ping = -1 ∧ pingFailNode.offlineAlertThrow = false) ∧
    ∃ o, deviceTask pingFailNode = Except.ok o ∧
      o.dash.status = "OFFLINE" ∧ o.dash.latency = 0 ∧
      o.detail.status = "OFFLINE" ∧ o.detail.latency = -1 ∧
      o.detail.metrics = {} :=
  ⟨⟨rfl, rfl⟩, C3_offline_publish_amended pingFailNode rfl rfl⟩

/-- Claim C4: a tick that finds the in-flight flag set does nothing but
skip; a tick that runs releases the flag on every exit path (normal,
early return, or rejection), so the following tick runs again. -/
theorem C4_no_overlap_flag_released (s : SchedState) (ev ev2 : CycleEvent) :
    (s.isPolling = true → pollTick s ev = (s, false, false)) ∧
    (s.isPolling = false →
      (pollTick s ev).2.1 = true ∧ (pollTick s ev).1.isPolling = false) ∧
    (s.isPolling = false → (pollTick (pollTick s ev).1 ev2).2.1 = true) := by
  obtain ⟨b⟩ := s
  cases b <;> cases ev <;> cases ev2 <;> simp [pollTick, cycleBody]

/-- Witness for C4: a busy tick skips; a free tick whose body throws
still releases the flag and the next tick runs. -/
theorem C4_no_overlap_flag_released_witness :
    ((⟨true⟩ : SchedState).isPolling = true ∧
      pollTick ⟨true⟩ CycleEvent.ok = (⟨true⟩, false, false)) ∧
    ((⟨false⟩ : SchedState).isPolling = false ∧
      (pollTick ⟨false⟩ CycleEvent.bodyFails).1.isPolling = false ∧
      (pollTick (pollTick ⟨false⟩ CycleEvent.bodyFails).1 CycleEvent.ok).2.1 = true) :=
  ⟨⟨rfl, (C4_no_overlap_flag_released ⟨true⟩ CycleEvent.ok CycleEvent.ok).1 rfl⟩,
   ⟨rfl, ((C4_no_overlap_flag_released ⟨false⟩ CycleEvent.bodyFails CycleEvent.ok).2.1 rfl).2,
     (C4_no_overlap_flag_released ⟨false⟩ CycleEvent.bodyFails CycleEvent.ok).2.2 rfl⟩⟩

/-- Counterexample to claim C5: two concurrent `getClient` callers for the
same key, interleaved check-check-connect-connect, begin two connection
attempts — not exactly one, because the pool is only populated after the
awaited connect resolves. -/
theorem C5_concurrent_double_connect_cex :
    (runAcqSchedule ⟨none, 0⟩ [AcqPC.start, AcqPC.start] [0, 1, 0, 1]).1.connects = 2 ∧
    (2 : ℕ) ≠ 1 := by
  exact ⟨rfl, by norm_num⟩

/-- Claim C5 as amended: a pooled handle is reused without a new attempt,
and sequential callers connect once; but each caller that checks the pool
before any connect has resolved begins its own attempt, so two concurrent
callers can open two connections; an error event on the pooled handle
evicts it, and the next caller then begins a fresh attempt. -/
theorem C5_pool_reuse_and_eviction (s : PoolState) (c cid : ℕ) :
    (s.pool = some c → acqStep s AcqPC.start = (s, AcqPC.done c)) ∧
    (s.pool = none →
      (acqStep s AcqPC.start).1.connects = s.connects + 1 ∧
      (acqStep s AcqPC.start).1.pool = none) ∧
    ((runAcqSchedule ⟨none, 0⟩ [AcqPC.start, AcqPC.start] [0, 0, 1]).1.connects = 1) ∧
    (s.pool = some cid → (poolErrorEvent s cid).pool = none ∧
      (acqStep (poolErrorEvent s cid) AcqPC.start).1.connects = s.connects + 1) := by
  refine ⟨?_, ?_, rfl, ?_⟩
  · intro h; simp [acqStep, h]
  · intro h; simp [acqStep, h]
  · intro h
    have hev : poolErrorEvent s cid = { s with pool := none } := by
      simp [poolErrorEvent, h]
    rw [hev]
    simp [acqStep]

/-- Witness for the amended C5 at concrete pool states. -/
theorem C5_pool_reuse_and_eviction_witness :
    ((⟨some 7, 3⟩ : PoolState).pool = some 7 ∧
      acqStep ⟨some 7, 3⟩ AcqPC.start = (⟨some 7, 3⟩, AcqPC.done 7)) ∧
    ((⟨none, 3⟩ : PoolState).pool = none ∧
      (acqStep ⟨none, 3⟩ AcqPC.start).1.connects = 4) ∧
    ((poolErrorEvent ⟨some 7, 3⟩ 7).pool = none ∧
      (acqStep (poolErrorEvent ⟨some 7, 3⟩ 7) AcqPC.start).1.connects = 4) :=
  ⟨⟨rfl, (C5_pool_reuse_and_eviction ⟨some 7, 3⟩ 7 7).1 rfl⟩,
   ⟨rfl, ((C5_pool_reuse_and_eviction ⟨none, 3⟩ 7 7).2.1 rfl).1⟩,
   ⟨((C5_pool_reuse_and_eviction ⟨some 7, 3⟩ 7 7).2.2.2 rfl).1,
     ((C5_pool_reuse_and_eviction ⟨some 7, 3⟩ 7 7).2.2.2 rfl).2⟩⟩

/-- Claim C6 (code bug): a reachable, credentialed device whose management
connect fails is published with status ONLINE and empty metrics — the
WARNING downgrade in the poller's catch is unreachable because
`fetchMetrics` catches its own errors and resolves with the empty
object. -/
theorem C6_connect_failure_published_online :
    (exceptValue (deviceTask reachableConnFailNode)).map
        (fun o => (o.status, o.dash.status, o.detail.metrics))
      = some ("ONLINE", "ONLINE", ({} : PartialMetrics)) ∧
    "ONLINE" ≠ "WARNING" := by
  constructor
  · simp [deviceTask, reachableConnFailNode, mkDeviceOutput, exceptValue,
      fetchMetricsResult, fmZero]
    norm_num
  · decide

/-- An active row exists for the pair exactly when the active count is
positive. -/
theorem hasActiveAlert_iff_count (db : List AlertRow) (n t : String) :
    hasActiveAlert db n t = true ↔ 0 < activeAlertCount db n t := by
  simp [hasActiveAlert, activeAlertCount, ← List.countP_eq_length_filter,
    List.countP_pos_iff, List.any_eq_true]

/-- Claim C8: re-raising an existing active (node, type) pair is a no-op,
and from a clean state one raise yields exactly one active row; the
at-most-one-active invariant is preserved. -/
theorem C8_alert_dedup (db : List AlertRow) (n t m1 s1 m2 s2 : String) :
    createAlert (createAlert db n t m1 s1) n t m2 s2 = createAlert db n t m1 s1 ∧
    (activeAlertCount db n t = 0 →
      activeAlertCount (createAlert db n t m1 s1) n t = 1) ∧
    (activeAlertCount db n t ≤ 1 →
      activeAlertCount (createAlert db n t m1 s1) n t ≤ 1) := by
  have hrow : matchesActive n t ⟨n, t, m1, s1, true⟩ = true := by
    simp [matchesActive]
  by_cases h : hasActiveAlert db n t
  · have h1 : createAlert db n t m1 s1 = db := by simp [createAlert, h]
    have hpos := (hasActiveAlert_iff_count db n t).mp h
    refine ⟨by rw [h1]; simp [createAlert, h], ?_, ?_⟩
    · intro h0; omega
    · intro _; rw [h1]; omega
  · have h1 : createAlert db n t m1 s1 = db ++ [⟨n, t, m1, s1, true⟩] := by
      simp [createAlert, h]
    have hcount0 : activeAlertCount db n t = 0 := by
      by_contra hc
      exact h ((hasActiveAlert_iff_count db n t).mpr (by omega))
    have hcnt : activeAlertCount (db ++ [⟨n, t, m1, s1, true⟩]) n t
        = activeAlertCount db n t + 1 := by
      simp [activeAlertCount, List.filter_append, hrow]
    have h2 : hasActiveAlert (db ++ [⟨n, t, m1, s1, true⟩]) n t = true := by
      rw [hasActiveAlert_iff_count, hcnt]
      omega
    refine ⟨?_, ?_, ?_⟩
    · rw [h1, createAlert, if_pos h2]
    · intro _; rw [h1, hcnt, hcount0]
    · intro _; rw [h1, hcnt, hcount0]

/-- Witness for C8: raising CPU_HIGH twice for the same node on an empty
table leaves exactly one active row. -/
theorem C8_alert_dedup_witness :
    activeAlertCount [] "n1" "CPU_HIGH" = 0 ∧
    activeAlertCount (createAlert [] "n1" "CPU_HIGH" "m" "CRITICAL") "n1" "CPU_HIGH" = 1 ∧
    createAlert (createAlert [] "n1" "CPU_HIGH" "m" "CRITICAL") "n1" "CPU_HIGH" "m" "CRITICAL"
      = createAlert [] "n1" "CPU_HIGH" "m" "CRITICAL" :=
  ⟨rfl, (C8_alert_dedup [] "n1" "CPU_HIGH" "m" "CRITICAL" "m" "CRITICAL").2.1 rfl,
    (C8_alert_dedup [] "n1" "CPU_HIGH" "m" "CRITICAL" "m" "CRITICAL").1⟩

/-- Counterexample to claim C9: a present voltage value `0` is below 20
yet raises no alert — the JS guard `metrics.voltage && metrics.voltage < 20`
treats `0` as falsy and skips the rule. -/
theorem C9_voltage_zero_no_alert_cex :
    voltageZeroMetrics.voltage = some 0 ∧ (0 : ℚ) < 20 ∧
    checkThresholds voltageZeroMetrics = [] := by
  refine ⟨rfl, by norm_num, ?_⟩
  simp [checkThresholds, voltageZeroMetrics]

/-- Claim C9 as amended: cpuLoad > 85 raises CPU_HIGH (CRITICAL),
temperature > 65 raises TEMP_HIGH (WARNING), and a present NONZERO
voltage < 20 raises VOLTAGE_LOW (WARNING); nothing else is raised.  A
present voltage of exactly 0 is falsy in the guard and raises nothing. -/
theorem C9_threshold_table_amended (m : PartialMetrics) :
    (cpuHighAlert ∈ checkThresholds m ↔ ∃ v, m.cpuLoad = some v ∧ 85 < v) ∧
    (tempHighAlert ∈ checkThresholds m ↔ ∃ v, m.temperature = some v ∧ 65 < v) ∧
    (voltageLowAlert ∈ checkThresholds m ↔
      ∃ v, m.voltage = some v ∧ v ≠ 0 ∧ v < 20) ∧
    (∀ a ∈ checkThresholds m, a = cpuHighAlert ∨ a = tempHighAlert ∨ a = voltageLowAlert) := by
  obtain ⟨c, mem, up, bn, ver, temp, volt, txr, rxr, ap⟩ := m
  refine ⟨?_, ?_, ?_, ?_⟩
  · cases c <;> cases temp <;> cases volt <;>
      simp_all [checkThresholds, cpuHighAlert, tempHighAlert, voltageLowAlert,
        ThresholdAlert.mk.injEq] <;> omega
  · cases c <;> cases temp <;> cases volt <;>
      simp_all [checkThresholds, cpuHighAlert, tempHighAlert, voltageLowAlert,
        ThresholdAlert.mk.injEq] <;> omega
  · cases c <;> cases temp <;> cases volt <;>
      simp_all [checkThresholds, cpuHighAlert, tempHighAlert, voltageLowAlert,
        ThresholdAlert.mk.injEq]
  · intro a ha
    cases c <;> cases temp <;> cases volt <;>
      simp_all [checkThresholds, cpuHighAlert, tempHighAlert, voltageLowAlert,
        ThresholdAlert.mk.injEq] <;> tauto

/-- Witness for the amended C9: cpuLoad 90 and voltage 12 raise exactly
CPU_HIGH and VOLTAGE_LOW. -/
theorem C9_threshold_table_amended_witness :
    (({ cpuLoad := some 90, voltage := some 12 } : PartialMetrics).cpuLoad = some 90
      ∧ (85 : ℤ) < 90) ∧
    cpuHighAlert ∈ checkThresholds { cpuLoad := some 90, voltage := some 12 } ∧
    voltageLowAlert ∈ checkThresholds { cpuLoad := some 90, voltage := some 12 } :=
  ⟨⟨rfl, by norm_num⟩,
   ((C9_threshold_table_amended _).1).mpr ⟨90, rfl, by norm_num⟩,
   ((C9_threshold_table_amended _).2.2.1).mpr ⟨12, rfl, by norm_num, by norm_num⟩⟩

/-- A device task whose offline-alert insert does not reject always
fulfills. -/
theorem deviceTask_fulfills (n : NodeInput) (h : n.offlineAlertThrow = false) :
    ∃ o, deviceTask n = Except.ok o := by
  unfold deviceTask
  split_ifs <;> simp_all

/-- A chunk of non-rejecting tasks fulfills entirely and yields one
output per device. -/
theorem mapTask_all_ok (b : List NodeInput)
    (h : ∀ n ∈ b, n.offlineAlertThrow = false) :
    (b.map deviceTask).all isOkTask = true ∧
    ((b.map deviceTask).filterMap exceptValue).length = b.length := by
  induction b with
  | nil => simp
  | cons x xs ih =>
    obtain ⟨o, ho⟩ := deviceTask_fulfills x (h x (by simp))
    have hxs := ih (fun n hn => h n (by simp [hn]))
    constructor
    · rw [List.map_cons, List.all_cons, ho]
      simp [isOkTask, hxs.1]
    · rw [List.map_cons, ho]
      have hcons : List.filterMap exceptValue (Except.ok o :: List.map deviceTask xs)
          = o :: List.filterMap exceptValue (List.map deviceTask xs) := by
        simp [List.filterMap_cons, exceptValue]
      rw [hcons, List.length_cons, hxs.2, List.length_cons]

/-- The chunk loop over rejection-free batches reaches the end of the
cycle and emits one output per device. -/
theorem runBatchesGo_all_ok (bs : List (List NodeInput)) (acc : List DeviceOutput)
    (h : ∀ b ∈ bs, ∀ n ∈ b, n.offlineAlertThrow = false) :
    (runBatchesGo bs acc).1 = true ∧
    (runBatchesGo bs acc).2.length = acc.length + (bs.map List.length).sum := by
  induction bs generalizing acc with
  | nil => simp [runBatchesGo]
  | cons b rest ih =>
    have hb := mapTask_all_ok b (h b (by simp))
    have hrest := ih (acc ++ (b.map deviceTask).filterMap exceptValue)
      (fun bb hbb n hn => h bb (by simp [hbb]) n hn)
    simp only [runBatchesGo, hb.1, if_true]
    refine ⟨hrest.1, ?_⟩
    rw [hrest.2, List.length_append, hb.2]
    simp [add_assoc]

/-- `chunkArrayGo` with positive size and enough fuel concatenates back
to the input list. -/
theorem chunkArrayGo_join {α : Type} (size : ℕ) (hs : 0 < size) :
    ∀ (fuel : ℕ) (l : List α), l.length ≤ fuel →
      (chunkArrayGo size fuel l).flatten = l := by
  intro fuel
  induction fuel with
  | zero =>
    intro l hl
    cases l with
    | nil => simp [chunkArrayGo]
    | cons x xs => simp at hl
  | succ f ih =>
    intro l hl
    cases l with
    | nil => simp [chunkArrayGo]
    | cons x xs =>
      have hdrop : ((x :: xs).drop size).length ≤ f := by
        rw [List.length_drop]
        simp only [List.length_cons] at hl ⊢
        omega
      simp only [chunkArrayGo, List.flatten_cons, ih ((x :: xs).drop size) hdrop]
      exact List.take_append_drop size (x :: xs)

/-- The chunks of a device list concatenate back to it. -/
theorem chunkArray_join (nodes : List NodeInput) :
    (chunkArray nodes 20).flatten = nodes :=
  chunkArrayGo_join 20 (by norm_num) nodes.length nodes le_rfl

/-- Counterexample to claim C7: 21 devices in two chunks; the first chunk
contains one unreachable device whose OFFLINE-alert insert rejects.  The
rejection propagates out of the chunk's `Promise.all`: only 19 of the 21
devices produce output, the second chunk never runs, and the cycle never
reaches the time-series flush or the dashboard broadcast. -/
theorem C7_offline_alert_failure_aborts_cycle_cex :
    cycleNodesCex.length = 21 ∧
    badOfflineNode ∈ cycleNodesCex ∧
    (runPollCycle cycleNodesCex).1 = false ∧
    (runPollCycle cycleNodesCex).2.length = 19 :=
  ⟨rfl, by simp [cycleNodesCex], rfl, rfl⟩

/-- Claim C7 as amended: failures in the metric fetch, the threshold
check, or the DB status write are captured per device and never abort
siblings or later chunks — a cycle whose devices all have a working
OFFLINE-alert insert completes and publishes one output per device — but
a rejected OFFLINE-alert insert escapes the per-device handler and aborts
the rest of the cycle (the cycle-level catch still prevents a crash). -/
theorem C7_contained_failures (nodes : List NodeInput)
    (h : ∀ n ∈ nodes, n.offlineAlertThrow = false) :
    (runPollCycle nodes).1 = true ∧
    (runPollCycle nodes).2.length = nodes.length := by
  have hj := chunkArray_join nodes
  have hmem : ∀ b ∈ chunkArray nodes 20, ∀ n ∈ b, n.offlineAlertThrow = false := by
    intro b hb n hn
    exact h n (by rw [← hj]; exact List.mem_flatten.mpr ⟨b, hb, hn⟩)
  have hrun := runBatchesGo_all_ok (chunkArray nodes 20) [] hmem
  have hlen : ((chunkArray nodes 20).map List.length).sum = nodes.length := by
    rw [← List.length_flatten, hj]
  refine ⟨hrun.1, ?_⟩
  rw [runPollCycle, hrun.2, hlen, List.length_nil, Nat.zero_add]

/-- Witness for the amended C7: a mixed chunk — one ping-only device, one
device whose threshold insert rejects (WARNING), one whose DB update
rejects, one unreachable device with a working alert insert — completes
with 4 outputs. -/
theorem C7_contained_failures_witness :
    (∀ n ∈ [goodNode, (⟨5, true, true, fmZero, true, false, false⟩ : NodeInput),
        (⟨5, false, false, fmZero, false, false, true⟩ : NodeInput), pingFailNode],
      n.offlineAlertThrow = false) ∧
    (runPollCycle [goodNode, ⟨5, true, true, fmZero, true, false, false⟩,
        ⟨5, false, false, fmZero, false, false, true⟩, pingFailNode]).1 = true ∧
    (runPollCycle [goodNode, ⟨5, true, true, fmZero, true, false, false⟩,
        ⟨5, false, false, fmZero, false, false, true⟩, pingFailNode]).2.length = 4 := by
  have h : ∀ n ∈ [goodNode, (⟨5, true, true, fmZero, true, false, false⟩ : NodeInput),
      (⟨5, false, false, fmZero, false, false, true⟩ : NodeInput), pingFailNode],
      n.offlineAlertThrow = false := by
    intro n hn
    simp [goodNode, pingFailNode] at hn
    rcases hn with h | h | h | h <;> rw [h]
  exact ⟨h, (C7_contained_failures _ h).1, (C7_contained_failures _ h).2⟩

/-- Claim C10: every dashboard-summary entry carries the four numeric
fields, defaulted to 0 with `|| 0` when metrics are absent (no
credentials or failed fetch); a ping-only device is indistinguishable in
the summary from an idle managed device. -/
theorem C10_dashboard_defaults (p : ℚ) (b : Bool) (fm : FullMetrics)
    (hp : p ≠ -1) :
    (∃ o, deviceTask ⟨p, false, b, fm, false, false, false⟩ = Except.ok o ∧
      o.dash.txRate = 0 ∧ o.dash.rxRate = 0 ∧
      o.dash.cpuLoad = 0 ∧ o.dash.memoryUsage = 0) ∧
    (∃ o, deviceTask ⟨p, true, false, fm, false, false, false⟩ = Except.ok o ∧
      o.dash.txRate = 0 ∧ o.dash.rxRate = 0 ∧
      o.dash.cpuLoad = 0 ∧ o.dash.memoryUsage = 0) ∧
    ((exceptValue (deviceTask ⟨p, false, b, fm, false, false, false⟩)).map DeviceOutput.dash
      = (exceptValue (deviceTask ⟨p, true, true, fmZero, false, false, false⟩)).map
          DeviceOutput.dash) := by
  refine ⟨⟨mkDeviceOutput "ONLINE" p {}, ?_, rfl, rfl, rfl, rfl⟩,
    ⟨mkDeviceOutput "ONLINE" p {}, ?_, rfl, rfl, rfl, rfl⟩, ?_⟩
  · simp [deviceTask, hp]
  · simp [deviceTask, hp, fetchMetricsResult]
  · simp [deviceTask, hp, exceptValue, mkDeviceOutput, fetchMetricsResult,
      fmZero, jsOrZeroQ, jsOrZeroI]

/-- Witness for C10 at latency 7 ms. -/
theorem C10_dashboard_defaults_witness :
    ((7 : ℚ) ≠ -1) ∧
    (∃ o, deviceTask ⟨7, false, true, fmZero, false, false, false⟩ = Except.ok o ∧
      o.dash.txRate = 0 ∧ o.dash.rxRate = 0 ∧
      o.dash.cpuLoad = 0 ∧ o.dash.memoryUsage = 0) ∧
    ((exceptValue (deviceTask ⟨7, false, true, fmZero, false, false, false⟩)).map
        DeviceOutput.dash
      = (exceptValue (deviceTask ⟨7, true, true, fmZero, false, false, false⟩)).map
          DeviceOutput.dash) :=
  ⟨by norm_num,
   (C10_dashboard_defaults 7 true fmZero (by norm_num)).1,
   (C10_dashboard_defaults 7 true fmZero (by norm_num)).2.2⟩

end Netmon
